import Mathlib

/-!
Verification of the DAP-Ghidra sync server scripts
(`ghidra_start_goto_server.py`, `ghidra_stop_goto_server.py`).

The Python sources are shallowly embedded below.  Pure request handling
(`DAPGhidraServer.handle_client`, `DAPGhidraServer.goto_address`) is
modelled as Lean functions over decoded request data; the stateful
lifecycle code (`DAPGhidraServer.start`/`stop`, `VirtualModule`, the
module-level registration in `sys.modules`) is modelled as explicit
state-passing functions over small record types, with the external
nondeterminism (whether the port bind succeeds, whether the thread join
finishes within its timeout) passed in as boolean parameters.

Python exceptions are modelled with `Except`/`Option`; a handler path on
which an exception escapes to the top-level `try` of `handle_client`
(which only logs and closes the socket) is modelled as `response = none`.
-/

namespace DapGhidra

/-! ### Python string primitives used by the scripts -/

/-- The default whitespace set of Python `str.strip()` (ASCII part):
space, tab, newline, carriage return, vertical tab, form feed. -/
def isPyWS (c : Char) : Bool :=
  (c == ' ') || (c == '\t') || (c == '\n') || (c == '\r') || (c == '\x0b') || (c == '\x0c')

/-- Python `str.strip()` on a character list: drop whitespace from both ends. -/
def pyStrip (l : List Char) : List Char :=
  ((l.dropWhile isPyWS).reverse.dropWhile isPyWS).reverse

/-- Python `str.startswith(pat)`: the first argument is the pattern. -/
def listStarts : List Char → List Char → Bool
  | [], _ => true
  | _ :: _, [] => false
  | p :: ps, c :: cs => (p == c) && listStarts ps cs

/-- ASCII lower-casing, as applied by `key.strip().lower()` on header keys. -/
def toLowerL (l : List Char) : List Char := l.map Char.toLower

/-- Value of a hexadecimal digit character, `none` for non-digits. -/
def hexDigitVal (c : Char) : Option Nat :=
  if '0' ≤ c ∧ c ≤ '9' then some (c.toNat - '0'.toNat)
  else if 'a' ≤ c ∧ c ≤ 'f' then some (c.toNat - 'a'.toNat + 10)
  else if 'A' ≤ c ∧ c ≤ 'F' then some (c.toNat - 'A'.toNat + 10)
  else none

/-- Value of a decimal digit character, `none` for non-digits. -/
def decDigitVal (c : Char) : Option Nat :=
  if '0' ≤ c ∧ c ≤ '9' then some (c.toNat - '0'.toNat) else none

/-- Digit scanner of CPython `int(s, base)` after sign and base mark:
accepts digits separated by single underscores; the flag records whether
the previous character was an underscore (or, at entry, whether a leading
underscore is forbidden). -/
def digitsLoop (dv : Char → Option Nat) (base : Nat) :
    List Char → Nat → Bool → Option Nat
  | [], acc, lastUnd => if lastUnd then none else some acc
  | c :: rest, acc, lastUnd =>
    if c = '_' then
      if lastUnd then none else digitsLoop dv base rest acc true
    else
      match dv c with
      | some d => digitsLoop dv base rest (base * acc + d) false
      | none => none

/-- Digit scanner right after a `0x`/`0X` base mark: a single leading
underscore is allowed there, but the digit string must be non-empty. -/
def digitsAfterMark (dv : Char → Option Nat) (base : Nat) (l : List Char) : Option Nat :=
  match l with
  | [] => none
  | _ :: _ => digitsLoop dv base l 0 false

/-- Split an optional leading `-`/`+` sign, as CPython `int()` does. -/
def signSplit : List Char → Bool × List Char
  | [] => (false, [])
  | c :: r => if c = '-' then (true, r) else if c = '+' then (false, r) else (false, c :: r)

/-- Magnitude part of CPython `int(s, 16)` after sign removal: an
optional `0x`/`0X` base mark, then hexadecimal digits with underscore
grouping. -/
def pyInt16Mag (l : List Char) : Option Nat :=
  match l with
  | c1 :: c2 :: r =>
    if c1 = '0' ∧ (c2 = 'x' ∨ c2 = 'X') then digitsAfterMark hexDigitVal 16 r
    else digitsLoop hexDigitVal 16 (c1 :: c2 :: r) 0 true
  | r => digitsLoop hexDigitVal 16 r 0 true

/-- CPython `int(s, 16)` on a character list: strips whitespace, takes an
optional sign, then the magnitude.  `none` models the `ValueError`. -/
def pyInt16L (l : List Char) : Option Int :=
  let p := signSplit (pyStrip l)
  match pyInt16Mag p.2 with
  | some n => some (if p.1 then -(n : Int) else (n : Int))
  | none => none

/-- CPython `int(s)` (base 10) on a character list. -/
def pyIntDecL (l : List Char) : Option Int :=
  let p := signSplit (pyStrip l)
  match digitsLoop decDigitVal 10 p.2 0 true with
  | some n => some (if p.1 then -(n : Int) else (n : Int))
  | none => none

/-! ### `DAPGhidraServer.goto_address` (lines 56-98) -/

/-- The `address_str[2:]` step of `goto_address`: strip one leading
`0x`/`0X` marker if present. -/
def stripHexMark (l : List Char) : List Char :=
  match l with
  | c1 :: c2 :: r => if c1 = '0' ∧ (c2 = 'x' ∨ c2 = 'X') then r else c1 :: c2 :: r
  | l => l

/-- The address-parsing pipeline of `goto_address` (lines 59-63):
`address_str.strip()`, strip an optional `0x`/`0X`, then `int(-, 16)`. -/
def parseAddressL (l : List Char) : Option Int :=
  pyInt16L (stripHexMark (pyStrip l))

/-- `parseAddressL` on a `String` input. -/
def parseAddress (s : String) : Option Int := parseAddressL s.toList

/-- Observable outcome of `goto_address`: `posted` is the integer value
handed to `SwingUtilities.invokeLater(navigate)` (the navigation command
posted to the UI thread); `errorLogged` records the `logger.error` call of
the `except ValueError` branch.  The body of `navigate` itself runs later
on the UI thread against external Ghidra state and is outside this model. -/
structure GotoResult where
  posted : Option Int
  errorLogged : Bool
  deriving DecidableEq

/-- `DAPGhidraServer.goto_address` (lines 56-98).  The function always
returns normally: the `except ValueError` / `except Exception` clauses
catch everything the body can raise, so no exception reaches the caller. -/
def gotoAddress (s : String) : GotoResult :=
  match parseAddress s with
  | some v => { posted := some v, errorLogged := false }
  | none => { posted := none, errorLogged := true }

/-! ### Decoded JSON values and `dict`-like access -/

/-- Decoded Python value as produced by `json.loads`. -/
inductive PyValue where
  | str (s : String)
  | num (n : Int)
  | bool (b : Bool)
  | null
  | list (xs : List PyValue)
  | obj (fields : List (String × PyValue))

/-- Lookup in a decoded JSON object (a Python `dict`, so keys are unique). -/
def lookupField : List (String × PyValue) → String → Option PyValue
  | [], _ => none
  | (k, v) :: rest, key => if k = key then some v else lookupField rest key

/-- Python type name, used in the `AttributeError` message text. -/
def pyTypeName : PyValue → String
  | .str _ => "str"
  | .num _ => "int"
  | .bool _ => "bool"
  | .null => "NoneType"
  | .list _ => "list"
  | .obj _ => "dict"

/-- `data.get(key, default)` (line 127): defined on `dict` values, raises
`AttributeError` (modelled as `.error`) on every other decoded value.  The
message text abbreviates the CPython one. -/
def pyGet (v : PyValue) (key : String) (dflt : PyValue) : Except String PyValue :=
  match v with
  | .obj fields => .ok ((lookupField fields key).getD dflt)
  | _ => .error (pyTypeName v ++ " object has no attribute get")

/-- Python truthiness of a decoded value (`if address_str:` at line 129). -/
def pyTruthy : PyValue → Bool
  | .str s => decide (s ≠ "")
  | .num n => decide (n ≠ 0)
  | .bool b => b
  | .null => false
  | .list xs => !xs.isEmpty
  | .obj fs => !fs.isEmpty

/-- Whether a decoded value is a JSON object (a Python `dict`). -/
def pyIsObj : PyValue → Bool
  | .obj _ => true
  | _ => false

/-! ### `DAPGhidraServer.handle_client` (lines 100-151)

The connection is presented to the model already split the way
`reader.readline()` splits it: the decoded request line, the decoded
header lines up to the blank line, and the remaining raw bytes.
`json.loads(body.decode(..))` is an external library call; it is passed
in as a `decode` function from bytes to a decoded value or an error. -/

/-- One inbound connection, as read by `handle_client`. -/
structure RawRequest where
  requestLine : String
  headerLines : List String
  bodyStream : List Nat
  deriving DecidableEq

/-- An HTTP response written by `handle_client`.  All bodies here are
ASCII, and the `Content-Length` the code sends is the byte length of
`body`. -/
structure HttpResponse where
  status : Nat
  statusText : String
  contentType : Option String
  body : String
  deriving DecidableEq

/-- The fixed `200 OK` response of line 131-132. -/
def resp200 : HttpResponse :=
  { status := 200, statusText := "OK", contentType := some "application/json",
    body := "\x7b\"status\":\"ok\"\x7d" }

/-- The fixed `400 Bad Request` response of line 135-136. -/
def resp400 : HttpResponse :=
  { status := 400, statusText := "Bad Request", contentType := some "application/json",
    body := "\x7b\"error\":\"no address provided\"\x7d" }

/-- The fixed `404 Not Found` response of line 117 (no body, no content type). -/
def resp404 : HttpResponse :=
  { status := 404, statusText := "Not Found", contentType := none, body := "" }

/-- The `500 Internal Server Error` response of lines 141-142, with the
body `json.dumps` produces for the exception message (note the space
after the colon, from the default `json.dumps` separators). -/
def resp500 (msg : String) : HttpResponse :=
  { status := 500, statusText := "Internal Server Error",
    contentType := some "application/json",
    body := "\x7b\"error\": \"" ++ msg ++ "\"\x7d" }

/-- The `request_line.strip()` plus `startswith('POST /goto')` test of
lines 104 and 116. -/
def requestLineIsGoto (s : String) : Bool :=
  listStarts "POST /goto".toList (pyStrip s.toList)

/-- `headers[key] = value` on a Python `dict`: overwrite in place, else
append (insertion order preserved). -/
def headerInsert : List (List Char × List Char) → List Char → List Char →
    List (List Char × List Char)
  | [], k, v => [(k, v)]
  | (k0, v0) :: rest, k, v =>
    if k0 = k then (k, v) :: rest else (k0, v0) :: headerInsert rest k v

/-- Header lookup: `headers.get(key)`. -/
def headersGet : List (List Char × List Char) → List Char → Option (List Char)
  | [], _ => none
  | (k0, v0) :: rest, k => if k0 = k then some v0 else headersGet rest k

/-- Split a header line at its first `:` (Python `line.split(':', 1)`);
`none` when the line has no colon. -/
def splitColon : List Char → Option (List Char × List Char)
  | [] => none
  | c :: rest =>
    if c = ':' then some ([], rest)
    else
      match splitColon rest with
      | some (k, v) => some (c :: k, v)
      | none => none

/-- The header loop of lines 106-114: strip each line, stop at the first
blank line, keep lines with a colon, map `key.strip().lower()` to
`value.strip()` with later duplicates overwriting earlier ones. -/
def collectHeaders : List String → List (List Char × List Char) →
    List (List Char × List Char)
  | [], hs => hs
  | line :: rest, hs =>
    let l := pyStrip line.toList
    if l = [] then hs
    else
      match splitColon l with
      | some (k, v) => collectHeaders rest (headerInsert hs (toLowerL (pyStrip k)) (pyStrip v))
      | none => collectHeaders rest hs

/-- `int(headers.get('content-length', 0))` (line 122): `0` when the
header is absent; a `ValueError` (modelled as `.error`) when the value is
not an integer literal. -/
def contentLengthE (headers : List (List Char × List Char)) : Except String Int :=
  match headersGet headers "content-length".toList with
  | none => .ok 0
  | some v =>
    match pyIntDecL v with
    | some n => .ok n
    | none => .error ("invalid literal for int with base 10: " ++ String.mk v)

/-- `await reader.read(n)` (line 123): at most `n` bytes (fewer at end of
stream); a negative `n` reads the whole remaining stream. -/
def readBody (n : Int) (stream : List Nat) : List Nat :=
  if n < 0 then stream else stream.take n.toNat

/-- Observable outcome of `handle_client` on one connection.
`response = none` means an exception escaped to the outer `try` of
lines 102/147, which only logs and closes the socket without writing any
response.  `gotoCalled` is the argument of the `self.goto_address(-)`
call when it happens, `bodyRead` the bytes consumed as the request body,
and `closed` the `finally` block of lines 149-151. -/
structure HandleResult where
  response : Option HttpResponse
  gotoCalled : Option PyValue
  bodyRead : List Nat
  closed : Bool

/-- `DAPGhidraServer.handle_client` (lines 100-151), parameterised by the
external `json.loads(body.decode('utf-8'))` step. -/
def handleClient (decode : List Nat → Except String PyValue) (req : RawRequest) :
    HandleResult :=
  if requestLineIsGoto req.requestLine = false then
    { response := some resp404, gotoCalled := none, bodyRead := [], closed := true }
  else
    match contentLengthE (collectHeaders req.headerLines []) with
    | .error _ =>
      { response := none, gotoCalled := none, bodyRead := [], closed := true }
    | .ok n =>
      match decode (readBody n req.bodyStream) with
      | .error e =>
        { response := some (resp500 e), gotoCalled := none,
          bodyRead := readBody n req.bodyStream, closed := true }
      | .ok data =>
        match pyGet data "address" (.str "") with
        | .error e =>
          { response := some (resp500 e), gotoCalled := none,
            bodyRead := readBody n req.bodyStream, closed := true }
        | .ok addr =>
          if pyTruthy addr then
            { response := some resp200, gotoCalled := some addr,
              bodyRead := readBody n req.bodyStream, closed := true }
          else
            { response := some resp400, gotoCalled := none,
              bodyRead := readBody n req.bodyStream, closed := true }

/-! ### Lifecycle model

`DAPGhidraServer`'s flags, the `VirtualModule` thread and event loop, and
the module-level hot-reload/registration code are modelled as explicit
state.  The outcomes the environment decides — whether the TCP bind at
lines 160-164 succeeds, and whether `thread.join(timeout=5)` at line 253
returns before the thread exits — enter as boolean parameters. -/

/-- Flags of one `DAPGhidraServer`: `running` is `self.running`,
`listening` records whether `self.server` holds a bound, open listener
socket. -/
structure ServerState where
  running : Bool
  listening : Bool
  deriving DecidableEq

/-- `DAPGhidraServer.__init__` (lines 52-54). -/
def initServer : ServerState := { running := false, listening := false }

/-- `DAPGhidraServer.start` (lines 153-175), plus the log lines it emits.
When already running it only warns; otherwise `asyncio.start_server`
either binds (`bindOk`) or raises, and the `except` arm catches the
exception, logs, and sets `running = False`. -/
def dapStartRes (s : ServerState) (bindOk : Bool) : ServerState × List String :=
  if s.running then (s, ["Server already running"])
  else if bindOk then ({ running := true, listening := true }, ["DAP-Ghidra Sync Server Started"])
  else ({ running := false, listening := false }, ["Failed to start server"])

/-- `DAPGhidraServer.stop` (lines 177-191): a silent no-op when not
running, otherwise closes the listener and clears `running`. -/
def dapStop (s : ServerState) : ServerState :=
  if s.running = false then s else { running := false, listening := false }

/-- State of one `VirtualModule`: its server, whether `self.thread` is
set (`hasThread`) and that thread is alive (`threadAlive`), the
`stop_event`, and whether the event loop is running (heartbeat active). -/
structure VM where
  server : ServerState
  hasThread : Bool
  threadAlive : Bool
  stopEventSet : Bool
  loopRunning : Bool
  deriving DecidableEq

/-- `VirtualModule.__init__` (lines 194-198). -/
def initVM : VM :=
  { server := initServer, hasThread := false, threadAlive := false,
    stopEventSet := false, loopRunning := false }

/-- `VirtualModule.start_server` (lines 235-243) together with the
startup portion of `run_event_loop` (lines 215-227): a warning-only no-op
when the thread is alive; otherwise a fresh thread runs a fresh loop with
a fresh `stop_event` and the scheduled `server.start()` task executes
with bind outcome `bindOk`.  Note that even on bind failure the loop
(and its heartbeat task) keeps running inside `run_forever`. -/
def vmStart (vm : VM) (bindOk : Bool) : VM :=
  if vm.hasThread && vm.threadAlive then vm
  else
    { vm with hasThread := true, threadAlive := true, loopRunning := true,
              stopEventSet := false, server := (dapStartRes vm.server bindOk).1 }

/-- Result of `VirtualModule.stop_server`: the new state, whether the
`Server not running` warning fired, the timeout passed to
`thread.join`, and the final report (`some true` = `Server thread
stopped`, `some false` = `Thread did not stop cleanly`). -/
structure StopOutcome where
  vm : VM
  warnedNotRunning : Bool
  joinTimeout : Option Nat
  reportedClean : Option Bool
  deriving DecidableEq

/-- `VirtualModule.stop_server` (lines 245-261) together with
`wait_for_stop` (lines 200-206).  When the thread is absent or dead it
only warns.  Otherwise it sets the stop event and joins with timeout 5:
if the join finishes (`joinClean`), `wait_for_stop` has run — the server
is stopped, the listener closed, the loop stopped, the thread dead; if
the join times out, the thread is abandoned still alive with the
shutdown merely signalled.  `self.thread = None` happens either way. -/
def vmStop (vm : VM) (joinClean : Bool) : StopOutcome :=
  if (vm.hasThread && vm.threadAlive) = false then
    { vm := vm, warnedNotRunning := true, joinTimeout := none, reportedClean := none }
  else if joinClean then
    { vm := { vm with stopEventSet := true, server := dapStop vm.server,
                      loopRunning := false, threadAlive := false, hasThread := false },
      warnedNotRunning := false, joinTimeout := some 5, reportedClean := some true }
  else
    { vm := { vm with stopEventSet := true, hasThread := false },
      warnedNotRunning := false, joinTimeout := some 5, reportedClean := some false }

/-- Process-wide state across start-script invocations: the
`sys.modules[MODULE_NAME]` slot (the registry, at most one handle), plus
the modules that were deregistered but whose background thread may still
be alive. -/
structure SysState where
  retired : List VM
  registered : Option VM

/-- Fresh process: nothing registered. -/
def sysInit : SysState := { retired := [], registered := none }

/-- One invocation of the start script
(`ghidra_start_goto_server.py`, lines 32-38 and 263-268): if a module is
registered, call its `stop_server()` (join outcome `joinClean`) and
remove it from the slot; then create a fresh `VirtualModule`, register
it, and call `start_server()`.  The bind succeeds exactly when no
previously created listener still holds the port. -/
def scriptRun (sys : SysState) (joinClean : Bool) : SysState :=
  let retired :=
    match sys.registered with
    | some vm => sys.retired ++ [(vmStop vm joinClean).vm]
    | none => sys.retired
  let portFree := retired.all (fun vm => !vm.server.listening)
  { retired := retired, registered := some (vmStart initVM portFree) }

/-- Number of listener sockets currently bound to the port. -/
def listeningCount (sys : SysState) : Nat :=
  sys.retired.countP (fun vm => vm.server.listening) +
    (match sys.registered with
     | some vm => if vm.server.listening then 1 else 0
     | none => 0)

/-- Number of handles in the registry slot. -/
def registeredCount (sys : SysState) : Nat :=
  match sys.registered with
  | some _ => 1
  | none => 0

/-! ### Concrete inputs used by witnesses and counterexamples -/

/-- Decode stub: a well-formed JSON object with a non-hexadecimal,
non-empty address. -/
def decodeAddrZz : List Nat → Except String PyValue :=
  fun _ => .ok (.obj [("address", .str "zzqq")])

/-- Decode stub: a JSON object with an empty address. -/
def decodeAddrEmpty : List Nat → Except String PyValue :=
  fun _ => .ok (.obj [("other", .num 3), ("address", .str "")])

/-- Decode stub: a JSON array, not an object. -/
def decodeArr : List Nat → Except String PyValue :=
  fun _ => .ok (.list [.num 1, .num 2])

/-- Decode stub: an arbitrary decoded value, for paths that never decode. -/
def decodeNull : List Nat → Except String PyValue :=
  fun _ => .ok .null

/-- A well-formed `POST /goto` connection. -/
def reqGoto : RawRequest :=
  { requestLine := "POST /goto HTTP/1.1",
    headerLines := ["Host: 127.0.0.1:18888", "Content-Length: 5"],
    bodyStream := [1, 2, 3, 4, 5, 6, 7] }

/-- A `GET /` connection. -/
def reqGet : RawRequest :=
  { requestLine := "GET / HTTP/1.1",
    headerLines := ["Content-Length: 4"],
    bodyStream := [10, 11, 12, 13] }

/-- A `POST /goto` connection whose `Content-Length` is not an integer. -/
def reqBadLen : RawRequest :=
  { requestLine := "POST /goto HTTP/1.1",
    headerLines := ["Content-Length: abc"],
    bodyStream := [1, 2, 3] }

/-- A `POST /goto` connection without a `Content-Length` header. -/
def reqNoLen : RawRequest :=
  { requestLine := "POST /goto HTTP/1.1",
    headerLines := ["Host: 127.0.0.1:18888"],
    bodyStream := [9, 9] }

/-- A running `VirtualModule`, as after a successful `start_server()`. -/
def vmRunning : VM := vmStart initVM true

/-- A system state with one registered, running module. -/
def sysRunning : SysState := scriptRun sysInit true

/-! ## Theorems -/

/-- Every branch past the request-line and content-length checks reads
the same body: `bodyRead` is exactly the `Content-Length`-bounded read. -/
theorem handleClient_bodyRead (decode : List Nat → Except String PyValue)
    (req : RawRequest) (n : Int)
    (hline : requestLineIsGoto req.requestLine = true)
    (hlen : contentLengthE (collectHeaders req.headerLines []) = .ok n) :
    (handleClient decode req).bodyRead = readBody n req.bodyStream := by
  unfold handleClient
  rw [hline, hlen]
  cases hdec : decode (readBody n req.bodyStream) with
  | error e => simp [hdec]
  | ok data =>
    cases hget : pyGet data "address" (.str "") with
    | error e => simp [hdec, hget]
    | ok addr =>
      cases ht : pyTruthy addr <;> simp [hdec, hget, ht]

/-- Claim C1: for every connection whose request line matches
`POST /goto` and whose body decodes as a JSON object with a non-empty
string `address` field, `handle_client` responds `200 OK` with body
`\x7b"status":"ok"\x7d`, for every value of the address string — the
response does not depend on the outcome of `goto_address`, only on the
string being non-empty. -/
theorem goto_nonempty_address_yields_200
    (decode : List Nat → Except String PyValue) (req : RawRequest)
    (n : Int) (fields : List (String × PyValue)) (a : String)
    (hline : requestLineIsGoto req.requestLine = true)
    (hlen : contentLengthE (collectHeaders req.headerLines []) = .ok n)
    (hdec : decode (readBody n req.bodyStream) = .ok (.obj fields))
    (haddr : lookupField fields "address" = some (.str a))
    (hne : a ≠ "") :
    (handleClient decode req).response = some resp200
      ∧ (handleClient decode req).gotoCalled = some (.str a) := by
  have ht : pyTruthy (.str a) = true := by simp [pyTruthy, hne]
  unfold handleClient
  rw [hline, hlen]
  simp [hdec, pyGet, haddr, ht]

/-- Witness for C1: a concrete `POST /goto` carrying the non-hexadecimal
address `"zzqq"` is still answered `200 OK`. -/
theorem goto_nonempty_address_yields_200_w :
    (handleClient decodeAddrZz reqGoto).response = some resp200
      ∧ (handleClient decodeAddrZz reqGoto).gotoCalled = some (.str "zzqq") :=
  goto_nonempty_address_yields_200 decodeAddrZz reqGoto 5 [("address", .str "zzqq")] "zzqq"
    (by decide) rfl rfl rfl (by decide)

/-- Claim C2: every connection whose (stripped) request line does not
start with `POST /goto` is answered `404 Not Found` with an empty body
and then closed, whatever its headers and body are, and `goto_address`
is never invoked. -/
theorem non_goto_yields_404
    (decode : List Nat → Except String PyValue) (req : RawRequest)
    (hline : requestLineIsGoto req.requestLine = false) :
    (handleClient decode req).response = some resp404
      ∧ (handleClient decode req).gotoCalled = none
      ∧ (handleClient decode req).bodyRead = []
      ∧ (handleClient decode req).closed = true := by
  unfold handleClient
  rw [hline]
  simp

/-- Witness for C2: a concrete `GET /` connection receives the 404. -/
theorem non_goto_yields_404_w :
    (handleClient decodeNull reqGet).response = some resp404
      ∧ (handleClient decodeNull reqGet).gotoCalled = none
      ∧ (handleClient decodeNull reqGet).bodyRead = []
      ∧ (handleClient decodeNull reqGet).closed = true :=
  non_goto_yields_404 decodeNull reqGet (by decide)

/-- Claim C3: a `POST /goto` request whose body decodes as a JSON object
with the `address` field absent or equal to the empty string is answered
`400 Bad Request` with exactly the body
`\x7b"error":"no address provided"\x7d`, and `goto_address` is not
invoked. -/
theorem goto_missing_address_yields_400
    (decode : List Nat → Except String PyValue) (req : RawRequest)
    (n : Int) (fields : List (String × PyValue))
    (hline : requestLineIsGoto req.requestLine = true)
    (hlen : contentLengthE (collectHeaders req.headerLines []) = .ok n)
    (hdec : decode (readBody n req.bodyStream) = .ok (.obj fields))
    (haddr : lookupField fields "address" = none
      ∨ lookupField fields "address" = some (.str "")) :
    (handleClient decode req).response = some resp400
      ∧ (handleClient decode req).gotoCalled = none := by
  have ht : pyTruthy ((lookupField fields "address").getD (.str "")) = false := by
    rcases haddr with h | h <;> rw [h] <;> decide
  unfold handleClient
  rw [hline, hlen]
  simp [hdec, pyGet, ht]

/-- Witness for C3: a concrete body with an empty address string gets
the fixed 400 response. -/
theorem goto_missing_address_yields_400_w :
    (handleClient decodeAddrEmpty reqGoto).response = some resp400
      ∧ (handleClient decodeAddrEmpty reqGoto).gotoCalled = none :=
  goto_missing_address_yields_400 decodeAddrEmpty reqGoto 5
    [("other", .num 3), ("address", .str "")]
    (by decide) rfl rfl (Or.inr rfl)

/-- Claim C10: a `POST /goto` request whose body decodes successfully but
not as a JSON object (array, number, string, boolean or null) is answered
`500 Internal Server Error` with an error-message body: the `data.get`
call raises `AttributeError`, which the same `except` arm as decode
failures turns into the 500 response. -/
theorem goto_non_object_yields_500
    (decode : List Nat → Except String PyValue) (req : RawRequest)
    (n : Int) (v : PyValue)
    (hline : requestLineIsGoto req.requestLine = true)
    (hlen : contentLengthE (collectHeaders req.headerLines []) = .ok n)
    (hdec : decode (readBody n req.bodyStream) = .ok v)
    (hobj : pyIsObj v = false) :
    (handleClient decode req).response
        = some (resp500 (pyTypeName v ++ " object has no attribute get"))
      ∧ (handleClient decode req).gotoCalled = none := by
  have hg : pyGet v "address" (.str "")
      = .error (pyTypeName v ++ " object has no attribute get") := by
    cases v <;> first | rfl | simp [pyIsObj] at hobj
  unfold handleClient
  rw [hline, hlen]
  simp [hdec, hg]

/-- Witness for C10: a concrete JSON-array body gets the 500 response. -/
theorem goto_non_object_yields_500_w :
    (handleClient decodeArr reqGoto).response
        = some (resp500 ("list object has no attribute get"))
      ∧ (handleClient decodeArr reqGoto).gotoCalled = none :=
  goto_non_object_yields_500 decodeArr reqGoto 5 (.list [.num 1, .num 2])
    (by decide) rfl rfl rfl

/-- Counterexample to claim C4: on a `POST /goto` whose `Content-Length`
header value is `abc`, the handler does not fall back to a body length
of 0 — the `int` conversion raises, the outer handler catches it, and
the connection is closed without any HTTP response at all. -/
theorem malformed_content_length_no_response_cex :
    (handleClient decodeNull reqBadLen).response = none
      ∧ (handleClient decodeNull reqBadLen).closed = true := by
  decide

/-- Claim C4 (amended): `handle_client` reads exactly the first
`Content-Length` bytes of the stream (all remaining bytes when fewer are
available); an absent `Content-Length` header defaults the length to 0;
a malformed (non-integer) header value raises inside the handler, which
answers nothing and closes the connection. -/
theorem content_length_default_and_malformed
    (decode : List Nat → Except String PyValue) (req : RawRequest)
    (hline : requestLineIsGoto req.requestLine = true) :
    (headersGet (collectHeaders req.headerLines []) "content-length".toList = none →
        contentLengthE (collectHeaders req.headerLines []) = .ok 0
          ∧ (handleClient decode req).bodyRead = readBody 0 req.bodyStream)
      ∧ (∀ v n, headersGet (collectHeaders req.headerLines []) "content-length".toList = some v →
          pyIntDecL v = some n →
          (handleClient decode req).bodyRead = readBody n req.bodyStream)
      ∧ (∀ v, headersGet (collectHeaders req.headerLines []) "content-length".toList = some v →
          pyIntDecL v = none →
          (handleClient decode req).response = none
            ∧ (handleClient decode req).bodyRead = []) := by
  refine ⟨fun h => ?_, fun v n hv hn => ?_, fun v hv hn => ?_⟩
  · have hlen : contentLengthE (collectHeaders req.headerLines []) = .ok 0 := by
      unfold contentLengthE; rw [h]
    exact ⟨hlen, handleClient_bodyRead decode req 0 hline hlen⟩
  · have hlen : contentLengthE (collectHeaders req.headerLines []) = .ok n := by
      unfold contentLengthE
      rw [hv]
      simp [hn]
    exact handleClient_bodyRead decode req n hline hlen
  · have hlen : contentLengthE (collectHeaders req.headerLines [])
        = .error ("invalid literal for int with base 10: " ++ String.mk v) := by
      unfold contentLengthE
      rw [hv]
      simp [hn]
    unfold handleClient
    rw [hline, hlen]
    simp

/-- Witness for the amended C4: on a concrete request with no
`Content-Length` header the length defaults to 0 and no body bytes are
consumed. -/
theorem content_length_default_and_malformed_w :
    contentLengthE (collectHeaders reqNoLen.headerLines []) = .ok 0
      ∧ (handleClient decodeNull reqNoLen).bodyRead = readBody 0 reqNoLen.bodyStream :=
  (content_length_default_and_malformed decodeNull reqNoLen (by decide)).1 rfl

/-! ### Address parsing lemmas (for C5 and C6) -/

/-- `dropWhile` is the identity on a list containing no matching element. -/
theorem dropWhile_eq_self_of (p : Char → Bool) (l : List Char)
    (h : ∀ c ∈ l, p c = false) : l.dropWhile p = l := by
  cases l with
  | nil => rfl
  | cons a t =>
    rw [List.dropWhile_cons, h a (List.mem_cons_self a t)]
    simp

/-- Stripping is the identity on whitespace-free text. -/
theorem pyStrip_eq_self (l : List Char) (h : ∀ c ∈ l, isPyWS c = false) :
    pyStrip l = l := by
  unfold pyStrip
  rw [dropWhile_eq_self_of _ _ h,
    dropWhile_eq_self_of _ _ (fun c hc => h c (List.mem_reverse.mp hc)),
    List.reverse_reverse]

/-- A hexadecimal digit is not whitespace, a sign, an underscore, or a
base-mark letter. -/
theorem hexDigit_facts (c : Char) (h : (hexDigitVal c).isSome = true) :
    isPyWS c = false ∧ c ≠ '-' ∧ c ≠ '+' ∧ c ≠ '_' ∧ c ≠ 'x' ∧ c ≠ 'X' := by
  refine ⟨?_, ?_, ?_, ?_, ?_, ?_⟩
  · cases hw : isPyWS c
    · rfl
    · exfalso
      have hc : c = ' ' ∨ c = '\t' ∨ c = '\n' ∨ c = '\r' ∨ c = '\x0b' ∨ c = '\x0c' := by
        simpa [isPyWS, or_assoc] using hw
      rcases hc with h1 | h1 | h1 | h1 | h1 | h1 <;> subst h1 <;> exact absurd h (by decide)
  · intro e; subst e; exact absurd h (by decide)
  · intro e; subst e; exact absurd h (by decide)
  · intro e; subst e; exact absurd h (by decide)
  · intro e; subst e; exact absurd h (by decide)
  · intro e; subst e; exact absurd h (by decide)

/-- On a run of hexadecimal digits the scanner accumulates left-to-right
and cannot fail. -/
theorem digitsLoop_hex (l : List Char)
    (h : ∀ c ∈ l, (hexDigitVal c).isSome = true) (acc : Nat) :
    digitsLoop hexDigitVal 16 l acc false
      = some (l.foldl (fun a c => 16 * a + ((hexDigitVal c).getD 0)) acc) := by
  induction l generalizing acc with
  | nil => rfl
  | cons c t ih =>
    have hc := h c (List.mem_cons_self c t)
    obtain ⟨d, hd⟩ := Option.isSome_iff_exists.mp hc
    have hcu : c ≠ '_' := (hexDigit_facts c hc).2.2.2.1
    have step : digitsLoop hexDigitVal 16 (c :: t) acc false
        = digitsLoop hexDigitVal 16 t (16 * acc + d) false := by
      simp [digitsLoop, hcu, hd]
    rw [step, ih (fun x hx => h x (List.mem_cons_of_mem c hx))]
    simp [hd]

/-- On a non-empty run of hexadecimal digits the no-leading-underscore
entry mode makes no difference. -/
theorem digitsLoop_true_hex (l : List Char) (hne : l ≠ [])
    (h : ∀ c ∈ l, (hexDigitVal c).isSome = true) :
    digitsLoop hexDigitVal 16 l 0 true = digitsLoop hexDigitVal 16 l 0 false := by
  cases l with
  | nil => exact absurd rfl hne
  | cons c t =>
    have hc := h c (List.mem_cons_self c t)
    obtain ⟨d, hd⟩ := Option.isSome_iff_exists.mp hc
    have hcu : c ≠ '_' := (hexDigit_facts c hc).2.2.2.1
    simp [digitsLoop, hcu, hd]

/-- The magnitude scanner succeeds on a non-empty run of plain
hexadecimal digits: there is no base mark to take, so the digits are
folded directly. -/
theorem pyInt16Mag_hex (l : List Char) (hne : l ≠ [])
    (h : ∀ c ∈ l, (hexDigitVal c).isSome = true) :
    pyInt16Mag l
      = some (l.foldl (fun a c => 16 * a + ((hexDigitVal c).getD 0)) 0) := by
  cases l with
  | nil => exact absurd rfl hne
  | cons c t =>
    cases t with
    | nil =>
      show digitsLoop hexDigitVal 16 [c] 0 true = _
      rw [digitsLoop_true_hex [c] (by simp) h, digitsLoop_hex [c] h 0]
    | cons c2 r =>
      have f2 := hexDigit_facts c2 (h c2 (by simp))
      have hcond : ¬(c = '0' ∧ (c2 = 'x' ∨ c2 = 'X')) := by
        rintro ⟨-, h2 | h2⟩
        · exact f2.2.2.2.2.1 h2
        · exact f2.2.2.2.2.2 h2
      show (if c = '0' ∧ (c2 = 'x' ∨ c2 = 'X') then digitsAfterMark hexDigitVal 16 r
          else digitsLoop hexDigitVal 16 (c :: c2 :: r) 0 true) = _
      rw [if_neg hcond,
        digitsLoop_true_hex (c :: c2 :: r) (by simp) h,
        digitsLoop_hex (c :: c2 :: r) h 0]

/-- `int(-, 16)` on a non-empty run of plain hexadecimal digits yields
their value. -/
theorem pyInt16L_hex (l : List Char) (hne : l ≠ [])
    (h : ∀ c ∈ l, (hexDigitVal c).isSome = true) :
    pyInt16L l
      = some ((l.foldl (fun a c => 16 * a + ((hexDigitVal c).getD 0)) 0 : Nat) : Int) := by
  have hs : pyStrip l = l := pyStrip_eq_self l (fun c hc => (hexDigit_facts c (h c hc)).1)
  have hsign : signSplit l = (false, l) := by
    cases l with
    | nil => exact absurd rfl hne
    | cons c t =>
      have f := hexDigit_facts c (h c (List.mem_cons_self c t))
      simp [signSplit, f.2.1, f.2.2.1]
  unfold pyInt16L
  rw [hs]
  simp only [hsign]
  rw [pyInt16Mag_hex l hne h]
  simp

/-- On a run of hexadecimal digits there is no `0x`/`0X` mark to strip. -/
theorem stripHexMark_hex (l : List Char)
    (h : ∀ c ∈ l, (hexDigitVal c).isSome = true) :
    stripHexMark l = l := by
  cases l with
  | nil => rfl
  | cons c t =>
    cases t with
    | nil => rfl
    | cons c2 r =>
      have f2 := hexDigit_facts c2 (h c2 (by simp))
      have hcond : ¬(c = '0' ∧ (c2 = 'x' ∨ c2 = 'X')) := by
        rintro ⟨-, h2 | h2⟩
        · exact f2.2.2.2.2.1 h2
        · exact f2.2.2.2.2.2 h2
      simp [stripHexMark, hcond]

/-- Claim C5: for every non-empty string of hexadecimal digits `s`, the
address parser of `goto_address` yields the same unsigned integer on
`s`, `"0x" ++ s` and `"0X" ++ s`. -/
theorem parse_address_mark_insensitive (s : String)
    (hne : s.toList ≠ [])
    (hhex : ∀ c ∈ s.toList, (hexDigitVal c).isSome = true) :
    ∃ v : Nat, parseAddress s = some (v : Int)
      ∧ parseAddress ("0x" ++ s) = some (v : Int)
      ∧ parseAddress ("0X" ++ s) = some (v : Int) := by
  have hnw : ∀ c ∈ s.toList, isPyWS c = false :=
    fun c hc => (hexDigit_facts c (hhex c hc)).1
  refine ⟨s.toList.foldl (fun a c => 16 * a + ((hexDigitVal c).getD 0)) 0, ?_, ?_, ?_⟩
  · unfold parseAddress parseAddressL
    rw [pyStrip_eq_self _ hnw, stripHexMark_hex _ hhex, pyInt16L_hex _ hne hhex]
  · have hl : ("0x" ++ s).toList = '0' :: 'x' :: s.toList := by
      show ("0x" ++ s).data = '0' :: 'x' :: s.data
      rw [String.data_append]
      rfl
    have hnw2 : ∀ c ∈ '0' :: 'x' :: s.toList, isPyWS c = false := by
      intro c hc
      rcases hc with _ | ⟨_, hc⟩
      · decide
      · rcases hc with _ | ⟨_, hc⟩
        · decide
        · exact hnw c hc
    unfold parseAddress parseAddressL
    rw [hl, pyStrip_eq_self _ hnw2]
    have hmark : stripHexMark ('0' :: 'x' :: s.toList) = s.toList := by
      simp [stripHexMark]
    rw [hmark, pyInt16L_hex _ hne hhex]
  · have hl : ("0X" ++ s).toList = '0' :: 'X' :: s.toList := by
      show ("0X" ++ s).data = '0' :: 'X' :: s.data
      rw [String.data_append]
      rfl
    have hnw2 : ∀ c ∈ '0' :: 'X' :: s.toList, isPyWS c = false := by
      intro c hc
      rcases hc with _ | ⟨_, hc⟩
      · decide
      · rcases hc with _ | ⟨_, hc⟩
        · decide
        · exact hnw c hc
    unfold parseAddress parseAddressL
    rw [hl, pyStrip_eq_self _ hnw2]
    have hmark : stripHexMark ('0' :: 'X' :: s.toList) = s.toList := by
      simp [stripHexMark]
    rw [hmark, pyInt16L_hex _ hne hhex]

/-- Witness for C5: the digit string `1A0` parses to 416 with and
without either base mark. -/
theorem parse_address_mark_insensitive_w :
    ∃ v : Nat, parseAddress "1A0" = some (v : Int)
      ∧ parseAddress ("0x" ++ "1A0") = some (v : Int)
      ∧ parseAddress ("0X" ++ "1A0") = some (v : Int) :=
  parse_address_mark_insensitive "1A0" (by decide) (by decide)

/-- Claim C6: `goto_address` is total at its boundary.  When the
hexadecimal parse of the input fails it logs an error and posts no
navigation command to the UI thread; when the parse succeeds it posts
exactly the parsed value; in both cases it returns normally (the
function is total — the `except` clauses keep any exception from
reaching the caller). -/
theorem goto_address_total_boundary (s : String) :
    (parseAddress s = none →
        (gotoAddress s).posted = none ∧ (gotoAddress s).errorLogged = true)
      ∧ (∀ v : Int, parseAddress s = some v →
          (gotoAddress s).posted = some v ∧ (gotoAddress s).errorLogged = false) := by
  constructor
  · intro h
    unfold gotoAddress
    rw [h]
    exact ⟨rfl, rfl⟩
  · intro v h
    unfold gotoAddress
    rw [h]
    exact ⟨rfl, rfl⟩

/-- Witness for C6: on the non-hexadecimal input `wxyz` the parse fails,
nothing is posted, and the error is logged. -/
theorem goto_address_total_boundary_w :
    (gotoAddress "wxyz").posted = none ∧ (gotoAddress "wxyz").errorLogged = true :=
  (goto_address_total_boundary "wxyz").1 (by decide)

/-! ### Lifecycle theorems (C7, C8, C9) -/

/-- `stop_server` never creates a listener: if the listener is bound
after a stop, it was bound before. -/
theorem vmStop_listening_mono (vm : VM) (c : Bool)
    (h : (vmStop vm c).vm.server.listening = true) : vm.server.listening = true := by
  obtain ⟨⟨r, li⟩, ht, ta, se, lr⟩ := vm
  revert h
  cases r <;> cases li <;> cases ht <;> cases ta <;> cases se <;> cases lr <;> cases c <;> decide

/-- A freshly started module is listening exactly when its bind
succeeded. -/
theorem vmStart_init_listening (b : Bool) :
    (vmStart initVM b).server.listening = b := by
  cases b <;> decide

/-- Appending the freshly started module keeps the bound-listener count
at most one: the bind succeeds only when no retired listener holds the
port. -/
theorem newModuleCount (L : List VM)
    (h : L.countP (fun vm => vm.server.listening) ≤ 1) :
    L.countP (fun vm => vm.server.listening)
      + (if (vmStart initVM (L.all (fun vm => !vm.server.listening))).server.listening
         then 1 else 0) ≤ 1 := by
  cases hall : L.all (fun vm => !vm.server.listening) with
  | true =>
    have hzero : L.countP (fun vm => vm.server.listening) = 0 := by
      rw [List.countP_eq_zero]
      intro a ha
      have := List.all_eq_true.mp hall a ha
      simpa using this
    rw [hzero, vmStart_init_listening]
    simp
  | false =>
    rw [vmStart_init_listening]
    simpa using h

/-- One start-script invocation preserves the single-listener bound. -/
theorem scriptRun_invariant (sys : SysState) (c : Bool)
    (h : listeningCount sys ≤ 1) : listeningCount (scriptRun sys c) ≤ 1 := by
  unfold listeningCount at h
  cases hreg : sys.registered with
  | none =>
    rw [hreg] at h
    unfold scriptRun
    rw [hreg]
    unfold listeningCount
    simpa using newModuleCount sys.retired (by simpa using h)
  | some vm =>
    rw [hreg] at h
    have h2 : List.countP (fun x => x.server.listening) sys.retired
        + (if vm.server.listening then 1 else 0) ≤ 1 := by simpa using h
    unfold scriptRun
    rw [hreg]
    unfold listeningCount
    have hx : (if (vmStop vm c).vm.server.listening then 1 else 0)
        ≤ (if vm.server.listening then (1 : Nat) else 0) := by
      cases hxx : (vmStop vm c).vm.server.listening
      · simp
      · rw [vmStop_listening_mono vm c hxx]
    have hL : (sys.retired ++ [(vmStop vm c).vm]).countP (fun x => x.server.listening) ≤ 1 := by
      rw [List.countP_append, List.countP_cons, List.countP_nil]
      omega
    simpa using newModuleCount (sys.retired ++ [(vmStop vm c).vm]) hL

/-- Claim C7: the start script always stops the previously registered
handle before replacing it; the registry slot holds at most one handle;
and across any sequence of start-script invocations — with either join
outcome each time — at most one listener socket is ever bound to the
port.  The second part records the stop-then-replace order: the
previously registered handle leaves the slot only after its
`stop_server()` ran, its post-stop state appended to the retired list. -/
theorem register_stop_then_replace_single_listener :
    (∀ runs : List Bool, listeningCount (runs.foldl scriptRun sysInit) ≤ 1
      ∧ registeredCount (runs.foldl scriptRun sysInit) ≤ 1)
      ∧ (∀ (sys : SysState) (c : Bool) (vm : VM), sys.registered = some vm →
          (scriptRun sys c).retired = sys.retired ++ [(vmStop vm c).vm]) := by
  constructor
  · intro runs
    constructor
    · have main : ∀ (rs : List Bool) (sys : SysState), listeningCount sys ≤ 1 →
          listeningCount (rs.foldl scriptRun sys) ≤ 1 := by
        intro rs
        induction rs with
        | nil => intro sys h; exact h
        | cons c rest ih => intro sys h; exact ih _ (scriptRun_invariant sys c h)
      exact main runs sysInit (by decide)
    · unfold registeredCount
      cases (runs.foldl scriptRun sysInit).registered <;> simp
  · intro sys c vm h
    unfold scriptRun
    rw [h]

/-- Witness for C7: replacing the concrete running instance with a
second one records the stopped prior handle in the retired list. -/
theorem register_stop_then_replace_single_listener_w :
    (scriptRun sysRunning false).retired
      = sysRunning.retired ++ [(vmStop vmRunning false).vm] :=
  register_stop_then_replace_single_listener.2 sysRunning false vmRunning (by decide)

/-- Counterexample to claim C8: when the bind fails on a fresh start,
the service is indeed left with `running = false`, but the background
context does keep running — the thread stays alive and the event loop
(with its heartbeat task) continues inside `run_forever`. -/
theorem start_failure_context_keeps_running_cex :
    (vmStart initVM false).server.running = false
      ∧ (vmStart initVM false).server.listening = false
      ∧ (vmStart initVM false).threadAlive = true
      ∧ (vmStart initVM false).loopRunning = true := by
  decide

/-- Claim C8 (amended): an exception while starting the listener is
caught and logged (`Failed to start server`), leaves the service with
`running = false` and no listener bound, and nothing propagates to the
host — but the background thread and its event loop keep running until
a stop is requested. -/
theorem start_failure_leaves_stopped (vm : VM)
    (hth : (vm.hasThread && vm.threadAlive) = false)
    (hrun : vm.server.running = false) :
    (dapStartRes vm.server false).1.running = false
      ∧ (dapStartRes vm.server false).1.listening = false
      ∧ (dapStartRes vm.server false).2 = ["Failed to start server"]
      ∧ (vmStart vm false).server.running = false
      ∧ (vmStart vm false).threadAlive = true
      ∧ (vmStart vm false).loopRunning = true := by
  simp [vmStart, dapStartRes, hth, hrun]

/-- Witness for C8 (amended): the concrete fresh module with a failing
bind. -/
theorem start_failure_leaves_stopped_w :
    (dapStartRes initVM.server false).1.running = false
      ∧ (dapStartRes initVM.server false).1.listening = false
      ∧ (dapStartRes initVM.server false).2 = ["Failed to start server"]
      ∧ (vmStart initVM false).server.running = false
      ∧ (vmStart initVM false).threadAlive = true
      ∧ (vmStart initVM false).loopRunning = true :=
  start_failure_leaves_stopped initVM (by decide) (by decide)

/-- Claim C9: `stop_server` is a warning-only no-op when the background
thread is absent or dead; otherwise it sets the shutdown event, joins
the thread with the bounded timeout 5, and reports `Server thread
stopped` or `Thread did not stop cleanly` according to whether the
thread actually exited within the timeout. -/
theorem stop_server_behavior (vm : VM) (c : Bool) :
    ((vm.hasThread && vm.threadAlive) = false →
        vmStop vm c = { vm := vm, warnedNotRunning := true,
                        joinTimeout := none, reportedClean := none })
      ∧ ((vm.hasThread && vm.threadAlive) = true →
          (vmStop vm c).vm.stopEventSet = true
            ∧ (vmStop vm c).joinTimeout = some 5
            ∧ (vmStop vm c).warnedNotRunning = false
            ∧ (vmStop vm c).reportedClean = some c
            ∧ (vmStop vm c).vm.threadAlive = !c) := by
  constructor
  · intro h
    unfold vmStop
    rw [h]
    simp
  · intro h
    obtain ⟨h1, h2⟩ := Bool.and_eq_true_iff.mp h
    unfold vmStop
    rw [h]
    cases c <;> simp [h2]

/-- Witness for C9: the fresh module only warns; stopping the concrete
running module with a timed-out join sets the event, uses timeout 5, and
reports the thread still alive. -/
theorem stop_server_behavior_w :
    vmStop initVM true = { vm := initVM, warnedNotRunning := true,
                           joinTimeout := none, reportedClean := none }
      ∧ ((vmStop vmRunning false).vm.stopEventSet = true
          ∧ (vmStop vmRunning false).joinTimeout = some 5
          ∧ (vmStop vmRunning false).warnedNotRunning = false
          ∧ (vmStop vmRunning false).reportedClean = some false
          ∧ (vmStop vmRunning false).vm.threadAlive = !false) :=
  ⟨(stop_server_behavior initVM true).1 (by decide),
   (stop_server_behavior vmRunning false).2 (by decide)⟩

end DapGhidra
